import Mathlib

/-!
Verification of the vt_driver command-line dispatcher.

The driver is a thin front end over an external VirusTotal API client.
We embed it as a trace semantics: the API client is an oracle (a record
of response functions), the filesystem is an oracle for existence and
directory checks and for parsed INI config content, and each handler
produces the list of observable events (delegated API calls, JSON
pretty-prints to stdout, raw file writes, stderr messages) together
with a process outcome (normal return, `sys.exit(1)` via the `error`
helper, or an uncaught Python exception).
-/

/-- JSON values as handled by the driver (the driver never inspects the
structure beyond pretty-printing, except for the dict check on binary
endpoints). Numbers are modelled as integers. -/
inductive Json : Type where
  | null : Json
  | bool (b : Bool) : Json
  | num (n : Int) : Json
  | str (s : String) : Json
  | arr (elems : List Json) : Json
  | obj (members : List (String × Json)) : Json

/-- Response of the binary endpoints `get_network_traffic` and `get_file`:
the client returns raw bytes on success and a JSON dict on failure
(the driver tests `type(response) is dict`). -/
inductive BinResponse : Type where
  | dict (members : List (String × Json)) : BinResponse
  | bytes (content : List Nat) : BinResponse

/-- The external API client (`virus_total_apis.PrivateApi`), as an oracle:
one response function per method the driver invokes. -/
structure VTApi : Type where
  scan_file : String → Json
  rescan_file : String → Json
  get_file_report : String → Json
  get_file_behaviour : String → Json
  get_network_traffic : String → BinResponse
  file_search : String → Json
  get_file : String → BinResponse
  scan_url : String → Json
  get_url_report : String → Json
  get_ip_report : String → Json
  get_domain_report : String → Json

/-- Observable events of one driver invocation. -/
inductive Event : Type where
  | call (method : String) (arg : String) : Event
  | printJson (out : String) : Event
  | writeFile (path : String) (content : List Nat) : Event
  | printErr (msg : String) : Event
  | mkClient (apiKey : String) : Event

/-- Process outcome: normal completion, `sys.exit code`, or an uncaught
Python exception (which the interpreter turns into a traceback on stderr
and process exit status 1). -/
inductive Outcome : Type where
  | ok : Outcome
  | exit (code : Nat) : Outcome
  | uncaught (exn : String) : Outcome
deriving DecidableEq

/-- The filesystem oracle: `os.path.exists`, `os.path.isdir`, and the
parsed INI content (section names paired with option lists) a
`configparser` read of the path would produce. -/
structure FileSys : Type where
  pathExists : String → Bool
  isDir : String → Bool
  configAt : String → List (String × List (String × String))

/-- Python `str.join`: `sep.join(l)`. -/
def strJoin (sep : String) : List String → String
  | [] => ""
  | [x] => x
  | x :: y :: xs => x ++ sep ++ strJoin sep (y :: xs)

/-- Does the string start with a slash (for `os.path.join` semantics)? -/
def startsWithSlash (s : String) : Bool :=
  match s.data with
  | [] => false
  | c :: _ => c = '/'

/-- Does the string end with a slash (for `os.path.join` semantics)? -/
def endsWithSlash (s : String) : Bool :=
  match s.data.getLast? with
  | none => false
  | some c => c = '/'

/-- `os.path.join dir name` for a single component. -/
def path_join (dir name : String) : String :=
  if startsWithSlash name then name
  else if dir = "" then name
  else if endsWithSlash dir then dir ++ name
  else dir ++ "/" ++ name

/-- JSON string quoting as done by the serializer. -/
def escapeChar (c : Char) : String :=
  if c = '"' then "\\\""
  else if c = '\\' then "\\\\"
  else if c = '\n' then "\\n"
  else if c = '\t' then "\\t"
  else if c = '\r' then "\\r"
  else String.singleton c

/-- Quote a JSON string. -/
def quoteStr (s : String) : String :=
  "\"" ++ String.join (s.data.map escapeChar) ++ "\""

/-- Indentation padding: `ind` spaces per nesting level. -/
def pad (ind lvl : Nat) : String :=
  String.mk (List.replicate (ind * lvl) ' ')

/-- Key-ordering relation used by `sort_keys=True`: compare members by key. -/
def keyLE {α : Type} (a b : String × α) : Prop :=
  a.1 ≤ b.1

instance {α : Type} : DecidableRel (@keyLE α) :=
  fun a b => inferInstanceAs (Decidable (a.1 ≤ b.1))

/-- Sort an association list by key (Python `sorted(d.items())`). -/
def sortByKey {α : Type} (l : List (String × α)) : List (String × α) :=
  List.insertionSort keyLE l

mutual
/-- `json.dumps(v, sort_keys=True, indent=ind)` at nesting level `lvl`. -/
def dumpsVal : Json → Nat → Nat → String
  | .null, _, _ => "null"
  | .bool true, _, _ => "true"
  | .bool false, _, _ => "false"
  | .num n, _, _ => toString n
  | .str s, _, _ => quoteStr s
  | .arr [], _, _ => "[]"
  | .arr (e :: es), ind, lvl =>
      "[\n" ++
      strJoin ",\n" ((dumpsList (e :: es) ind (lvl + 1)).map
        (fun s => pad ind (lvl + 1) ++ s)) ++
      "\n" ++ pad ind lvl ++ "]"
  | .obj [], _, _ => "\x7b\x7d"
  | .obj (m :: ms), ind, lvl =>
      "\x7b\n" ++
      strJoin ",\n" ((sortByKey (dumpsMembers (m :: ms) ind (lvl + 1))).map
        (fun kv => pad ind (lvl + 1) ++ kv.2)) ++
      "\n" ++ pad ind lvl ++ "\x7d"

/-- Serialize each array element. -/
def dumpsList : List Json → Nat → Nat → List String
  | [], _, _ => []
  | e :: es, ind, lvl => dumpsVal e ind lvl :: dumpsList es ind lvl

/-- Serialize each object member, keeping the key for the later sort. -/
def dumpsMembers : List (String × Json) → Nat → Nat → List (String × String)
  | [], _, _ => []
  | (k, v) :: ms, ind, lvl =>
      (k, quoteStr k ++ ": " ++ dumpsVal v ind lvl) :: dumpsMembers ms ind lvl
end

/-- `pretty_print_json`: `print(json.dumps(json_data, sort_keys=True, indent=4))`.
The returned string is the full stdout contribution (print appends a newline). -/
def pretty_print_json (json_data : Json) : String :=
  dumpsVal json_data 4 0 ++ "\n"

/-- The `error` helper: print `ERROR: msg` to stderr, `sys.exit(1)`. -/
def error (msg : String) : List Event × Outcome :=
  ([Event.printErr ("ERROR: " ++ msg)], Outcome.exit 1)

/-- Message printed when more than 25 list arguments are supplied. -/
def maxArgsMsg : String :=
  "The VT Private API only allows a maximum of 25 arguments to be specified in a single query"

/-- `check_num_args`: fails via `error` when more than 25 arguments are given. -/
def check_num_args (args : List String) : Option (List Event × Outcome) :=
  if args.length > 25 then some (error maxArgsMsg) else none

/-- `configparser.get(section, option)`: raises `NoSectionError` or
`NoOptionError` (modelled as `Except.error` carrying the exception
message) when the section or option is absent. -/
def configGet (cfg : List (String × List (String × String)))
    (sectionName opt : String) : Except String String :=
  match cfg.lookup sectionName with
  | none => Except.error ("No section: \x27" ++ sectionName ++ "\x27")
  | some opts =>
      match opts.lookup opt with
      | none =>
          Except.error ("No option \x27" ++ opt ++ "\x27 in section: \x27" ++
            sectionName ++ "\x27")
      | some v => Except.ok v

/-- `parse_config`: returns the api key, or an error exit when the file does
not exist, or an uncaught configparser exception when the `vt` section or
`apikey` option is missing. -/
def parse_config (fs : FileSys) (conf_file : String) :
    List Event × Except Outcome String :=
  if fs.pathExists conf_file then
    match configGet (fs.configAt conf_file) "vt" "apikey" with
    | Except.ok k => ([], Except.ok k)
    | Except.error e => ([], Except.error (Outcome.uncaught e))
  else
    ([Event.printErr ("ERROR: " ++ "Config file \x27" ++ conf_file ++
      "\x27 does not exist")], Except.error (Outcome.exit 1))

/-- `file_scan`. -/
def file_scan (virus_total : VTApi) (file_to_scan : String) :
    List Event × Outcome :=
  ([Event.call "scan_file" file_to_scan,
    Event.printJson (pretty_print_json (virus_total.scan_file file_to_scan))],
   Outcome.ok)

/-- `file_rescan`. -/
def file_rescan (virus_total : VTApi) (hash_list : List String) :
    List Event × Outcome :=
  match check_num_args hash_list with
  | some r => r
  | none =>
      ([Event.call "rescan_file" (strJoin "," hash_list),
        Event.printJson (pretty_print_json
          (virus_total.rescan_file (strJoin "," hash_list)))],
       Outcome.ok)

/-- `file_report`. -/
def file_report (virus_total : VTApi) (hash_list : List String) :
    List Event × Outcome :=
  match check_num_args hash_list with
  | some r => r
  | none =>
      ([Event.call "get_file_report" (strJoin "," hash_list),
        Event.printJson (pretty_print_json
          (virus_total.get_file_report (strJoin "," hash_list)))],
       Outcome.ok)

/-- `file_behaviour`. -/
def file_behaviour (virus_total : VTApi) (hash_ : String) :
    List Event × Outcome :=
  ([Event.call "get_file_behaviour" hash_,
    Event.printJson (pretty_print_json
      (virus_total.get_file_behaviour hash_))],
   Outcome.ok)

/-- `network_traffic`: checks the output directory, then fetches the pcap;
a dict response is pretty-printed, bytes are written to
`os.path.join(output_dir, hash + ".pcap")`. -/
def network_traffic (fs : FileSys) (virus_total : VTApi)
    (hash_ output_dir : String) : List Event × Outcome :=
  if !(fs.isDir output_dir) then
    error ("\x27" ++ output_dir ++ "\x27 is not a valid output directory")
  else
    match virus_total.get_network_traffic hash_ with
    | BinResponse.dict d =>
        ([Event.call "get_network_traffic" hash_,
          Event.printJson (pretty_print_json (Json.obj d))],
         Outcome.ok)
    | BinResponse.bytes b =>
        ([Event.call "get_network_traffic" hash_,
          Event.writeFile (path_join output_dir (hash_ ++ ".pcap")) b],
         Outcome.ok)

/-- `search` (pagination not implemented, as in the source). -/
def search (virus_total : VTApi) (query : String) : List Event × Outcome :=
  ([Event.call "file_search" query,
    Event.printJson (pretty_print_json (virus_total.file_search query))],
   Outcome.ok)

/-- `file_download`: checks the output directory, fetches the file; a dict
response is pretty-printed, bytes are written to
`os.path.join(output_dir, hash)` and then `file_report` runs for the same
hash. -/
def file_download (fs : FileSys) (virus_total : VTApi)
    (hash_ output_dir : String) : List Event × Outcome :=
  if !(fs.isDir output_dir) then
    error ("\x27" ++ output_dir ++ "\x27 is not a valid output directory")
  else
    match virus_total.get_file hash_ with
    | BinResponse.dict d =>
        ([Event.call "get_file" hash_,
          Event.printJson (pretty_print_json (Json.obj d))],
         Outcome.ok)
    | BinResponse.bytes b =>
        let rep := file_report virus_total [hash_]
        (Event.call "get_file" hash_ ::
           Event.writeFile (path_join output_dir hash_) b :: rep.1,
         rep.2)

/-- `url_scan`. -/
def url_scan (virus_total : VTApi) (url_list : List String) :
    List Event × Outcome :=
  match check_num_args url_list with
  | some r => r
  | none =>
      ([Event.call "scan_url" (strJoin "\n" url_list),
        Event.printJson (pretty_print_json
          (virus_total.scan_url (strJoin "\n" url_list)))],
       Outcome.ok)

/-- `url_report`. -/
def url_report (virus_total : VTApi) (url_list : List String) :
    List Event × Outcome :=
  match check_num_args url_list with
  | some r => r
  | none =>
      ([Event.call "get_url_report" (strJoin "\n" url_list),
        Event.printJson (pretty_print_json
          (virus_total.get_url_report (strJoin "\n" url_list)))],
       Outcome.ok)

/-- `ip_report`. -/
def ip_report (virus_total : VTApi) (ip_address : String) :
    List Event × Outcome :=
  ([Event.call "get_ip_report" ip_address,
    Event.printJson (pretty_print_json
      (virus_total.get_ip_report ip_address))],
   Outcome.ok)

/-- `domain_report`. -/
def domain_report (virus_total : VTApi) (domain_name : String) :
    List Event × Outcome :=
  ([Event.call "get_domain_report" domain_name,
    Event.printJson (pretty_print_json
      (virus_total.get_domain_report domain_name))],
   Outcome.ok)

/-- The parsed subcommand, a closed tagged union. `noCmd` is the case where
no subcommand was given on the command line (argparse then leaves
`args.command` as `None` and `main` falls through its dispatch chain). -/
inductive Command : Type where
  | file_scan (file : String) : Command
  | rescan (hashes : List String) : Command
  | file_report (hashes : List String) : Command
  | behaviour (hash : String) : Command
  | pcap (hash : String) (output_dir : String) : Command
  | search (query : String) : Command
  | download (hash : String) (output_dir : String) : Command
  | url_scan (urls : List String) : Command
  | url_report (urls : List String) : Command
  | ip_report (ip : String) : Command
  | domain_report (domain : String) : Command
  | noCmd : Command
deriving DecidableEq

/-- The dispatch chain of `main` (the if/elif ladder over the command). -/
def dispatch (fs : FileSys) (virus_total : VTApi) : Command →
    List Event × Outcome
  | Command.file_scan f => file_scan virus_total f
  | Command.rescan hs => file_rescan virus_total hs
  | Command.file_report hs => file_report virus_total hs
  | Command.behaviour h => file_behaviour virus_total h
  | Command.pcap h d => network_traffic fs virus_total h d
  | Command.search q => search virus_total q
  | Command.download h d => file_download fs virus_total h d
  | Command.url_scan us => url_scan virus_total us
  | Command.url_report us => url_report virus_total us
  | Command.ip_report ip => ip_report virus_total ip
  | Command.domain_report dn => domain_report virus_total dn
  | Command.noCmd => ([], Outcome.ok)

/-- The `main` function of the driver: parse the config, construct the
client, dispatch. `mkApi` models the `VTPrivateAPI(api_key)` constructor.
The `api_key is None` check in the source is unreachable (`parse_config`
either returns a string or terminates) and so contributes nothing here.
Named `vt_main` because a bare `main` is reserved in Lean. -/
def vt_main (fs : FileSys) (mkApi : String → VTApi) (config_file : String)
    (cmd : Command) : List Event × Outcome :=
  match parse_config fs config_file with
  | (tr, Except.error o) => (tr, o)
  | (tr, Except.ok api_key) =>
      let r := dispatch fs (mkApi api_key) cmd
      (tr ++ Event.mkClient api_key :: r.1, r.2)

/-- The delegated API calls recorded in a trace, in order. -/
def delegatedCalls : List Event → List (String × String)
  | [] => []
  | Event.call m a :: es => (m, a) :: delegatedCalls es
  | Event.printJson _ :: es => delegatedCalls es
  | Event.writeFile _ _ :: es => delegatedCalls es
  | Event.printErr _ :: es => delegatedCalls es
  | Event.mkClient _ :: es => delegatedCalls es

/-- A client oracle whose JSON endpoints return `null` and whose binary
endpoints return a dict (failure shape). -/
def vtNull : VTApi where
  scan_file := fun _ => Json.null
  rescan_file := fun _ => Json.null
  get_file_report := fun _ => Json.null
  get_file_behaviour := fun _ => Json.null
  get_network_traffic := fun _ => BinResponse.dict []
  file_search := fun _ => Json.null
  get_file := fun _ => BinResponse.dict []
  scan_url := fun _ => Json.null
  get_url_report := fun _ => Json.null
  get_ip_report := fun _ => Json.null
  get_domain_report := fun _ => Json.null

/-- A client oracle whose binary endpoints return raw bytes (success). -/
def vtBytes : VTApi :=
  { vtNull with
    get_network_traffic := fun _ => BinResponse.bytes [1, 2, 3]
    get_file := fun _ => BinResponse.bytes [7] }

/-- Constructor oracle returning `vtNull` for any key. -/
def mkApiNull : String → VTApi := fun _ => vtNull

/-- Constructor oracle returning `vtBytes` for any key. -/
def mkApiBytes : String → VTApi := fun _ => vtBytes

/-- A filesystem where every path exists, every path is a directory, and
every config file parses to a `vt` section holding `apikey = k`. -/
def fsGood : FileSys where
  pathExists := fun _ => true
  isDir := fun _ => true
  configAt := fun _ => [("vt", [("apikey", "k")])]

/-- Like `fsGood` but no path is a directory. -/
def fsNoDir : FileSys :=
  { fsGood with isDir := fun _ => false }

/-- A filesystem where config files parse to no sections at all. -/
def fsNoSection : FileSys :=
  { fsGood with configAt := fun _ => [] }

/-- A filesystem where config files have a `vt` section without `apikey`. -/
def fsNoKey : FileSys :=
  { fsGood with configAt := fun _ => [("vt", [])] }

/-- A filesystem where no path exists. -/
def fsMissing : FileSys :=
  { fsGood with pathExists := fun _ => false }

/-- Claim C1: for every command taking a list-valued argument (rescan,
file-report, url-scan, url-report), a list of more than 25 elements makes
the program fail with a usage error and exit code 1 before the delegated
API call is made; lists of 25 or fewer elements pass this validation and
reach exactly one delegated call. -/
theorem claim_C1 (fs : FileSys) (vt : VTApi) (l : List String) (c : Command)
    (hc : c = Command.rescan l ∨ c = Command.file_report l ∨
      c = Command.url_scan l ∨ c = Command.url_report l) :
    (25 < l.length →
      dispatch fs vt c =
        ([Event.printErr ("ERROR: " ++ maxArgsMsg)], Outcome.exit 1)) ∧
    (l.length ≤ 25 →
      (dispatch fs vt c).2 = Outcome.ok ∧
      (delegatedCalls (dispatch fs vt c).1).length = 1) := by
  rcases hc with rfl | rfl | rfl | rfl <;>
    exact ⟨fun hgt => by
        simp [dispatch, file_rescan, file_report, url_scan, url_report,
          check_num_args, error, delegatedCalls, hgt],
      fun hle => by
        simp [dispatch, file_rescan, file_report, url_scan, url_report,
          check_num_args, error, delegatedCalls, gt_iff_lt,
          Nat.not_lt.mpr hle]⟩

/-- Witness for C1 at concrete inputs: 26 hashes are rejected before any
call, a single hash passes validation and makes one call. -/
theorem claim_C1_witness :
    (dispatch fsGood vtNull (Command.rescan (List.replicate 26 "h")) =
      ([Event.printErr ("ERROR: " ++ maxArgsMsg)], Outcome.exit 1)) ∧
    ((dispatch fsGood vtNull (Command.file_report ["a"])).2 = Outcome.ok ∧
      (delegatedCalls
        (dispatch fsGood vtNull (Command.file_report ["a"])).1).length = 1) :=
  ⟨(claim_C1 fsGood vtNull (List.replicate 26 "h") _ (Or.inl rfl)).1
      (by decide),
   (claim_C1 fsGood vtNull ["a"] _ (Or.inr (Or.inl rfl))).2 (by decide)⟩

/-- Claim C3: for download, when the delegated get-file call returns bytes,
the program writes the bytes to a file, then performs exactly one delegated
file-report call for the same hash and pretty-prints that report, in that
order. -/
theorem claim_C3 (fs : FileSys) (vt : VTApi) (h d : String) (b : List Nat)
    (hdir : fs.isDir d = true) (hresp : vt.get_file h = BinResponse.bytes b) :
    file_download fs vt h d =
      ([Event.call "get_file" h,
        Event.writeFile (path_join d h) b,
        Event.call "get_file_report" h,
        Event.printJson (pretty_print_json (vt.get_file_report h))],
       Outcome.ok) := by
  simp [file_download, hdir, hresp, file_report, check_num_args, strJoin]

/-- Witness for C3 at a concrete filesystem and client. -/
theorem claim_C3_witness :
    file_download fsGood vtBytes "h" "/out" =
      ([Event.call "get_file" "h",
        Event.writeFile (path_join "/out" "h") [7],
        Event.call "get_file_report" "h",
        Event.printJson (pretty_print_json (vtBytes.get_file_report "h"))],
       Outcome.ok) :=
  claim_C3 fsGood vtBytes "h" "/out" [7] rfl rfl

/-- Claim C4: for pcap and download the print-versus-persist decision is
made by the shape of the delegated response: a dict is pretty-printed and
no file is written; bytes are written verbatim to disk. -/
theorem claim_C4 (fs : FileSys) (vt : VTApi) (h d : String)
    (hdir : fs.isDir d = true) :
    (∀ m, vt.get_network_traffic h = BinResponse.dict m →
      network_traffic fs vt h d =
        ([Event.call "get_network_traffic" h,
          Event.printJson (pretty_print_json (Json.obj m))], Outcome.ok)) ∧
    (∀ b, vt.get_network_traffic h = BinResponse.bytes b →
      network_traffic fs vt h d =
        ([Event.call "get_network_traffic" h,
          Event.writeFile (path_join d (h ++ ".pcap")) b], Outcome.ok)) ∧
    (∀ m, vt.get_file h = BinResponse.dict m →
      file_download fs vt h d =
        ([Event.call "get_file" h,
          Event.printJson (pretty_print_json (Json.obj m))], Outcome.ok)) ∧
    (∀ b, vt.get_file h = BinResponse.bytes b →
      (file_download fs vt h d).1.head? = some (Event.call "get_file" h) ∧
      (file_download fs vt h d).1[1]? =
        some (Event.writeFile (path_join d h) b)) := by
  exact ⟨fun m hm => by simp [network_traffic, hdir, hm],
    fun b hb => by simp [network_traffic, hdir, hb],
    fun m hm => by simp [file_download, hdir, hm],
    fun b hb => by
      simp [file_download, hdir, hb, file_report, check_num_args, strJoin]⟩

/-- Witness for C4: concrete dict and bytes responses. -/
theorem claim_C4_witness :
    (network_traffic fsGood vtNull "h" "/out" =
      ([Event.call "get_network_traffic" "h",
        Event.printJson (pretty_print_json (Json.obj []))], Outcome.ok)) ∧
    (network_traffic fsGood vtBytes "h" "/out" =
      ([Event.call "get_network_traffic" "h",
        Event.writeFile (path_join "/out" ("h" ++ ".pcap")) [1, 2, 3]],
       Outcome.ok)) :=
  ⟨(claim_C4 fsGood vtNull "h" "/out" rfl).1 [] rfl,
   (claim_C4 fsGood vtBytes "h" "/out" rfl).2.1 [1, 2, 3] rfl⟩

/-- Claim C5: for pcap and download, a non-directory output path makes the
program fail with exit code 1 before the delegated network call: the whole
trace is the single stderr message, so no call is ever made. -/
theorem claim_C5 (fs : FileSys) (vt : VTApi) (h d : String)
    (hdir : fs.isDir d = false) :
    network_traffic fs vt h d =
      ([Event.printErr
          ("ERROR: " ++ ("\x27" ++ d ++ "\x27 is not a valid output directory"))],
       Outcome.exit 1) ∧
    file_download fs vt h d =
      ([Event.printErr
          ("ERROR: " ++ ("\x27" ++ d ++ "\x27 is not a valid output directory"))],
       Outcome.exit 1) := by
  constructor <;> simp [network_traffic, file_download, hdir, error]

/-- Witness for C5 at a filesystem with no directories. -/
theorem claim_C5_witness :
    network_traffic fsNoDir vtBytes "h" "/out" =
      ([Event.printErr
          ("ERROR: " ++ ("\x27" ++ "/out" ++ "\x27 is not a valid output directory"))],
       Outcome.exit 1) ∧
    file_download fsNoDir vtBytes "h" "/out" =
      ([Event.printErr
          ("ERROR: " ++ ("\x27" ++ "/out" ++ "\x27 is not a valid output directory"))],
       Outcome.exit 1) :=
  claim_C5 fsNoDir vtBytes "h" "/out" rfl

/-- Counterexample to claim C2 as stated: with a config file that exists
but has no `vt` section, the run produces no stderr message at all (in
particular none with the `ERROR:` prefix naming the config path); it dies
with an uncaught `NoSectionError` from `configparser`. -/
theorem claim_C2_counterexample :
    (vt_main fsNoSection mkApiNull "/root/.vtapi"
        (Command.file_report ["h"])).1 = [] ∧
    (vt_main fsNoSection mkApiNull "/root/.vtapi"
        (Command.file_report ["h"])).2 =
      Outcome.uncaught ("No section: \x27vt\x27") := by
  constructor <;> rfl

/-- Claim C2 as amended: a missing config file produces the
`ERROR:`-prefixed fatal message naming the config path and exit code 1;
but a config file that exists while lacking the `vt` section or the
`apikey` option terminates the run with an uncaught configparser
exception whose message names the section or option, not the path, and
nothing is printed by the program itself. -/
theorem claim_C2_amended (fs : FileSys) (mkApi : String → VTApi)
    (cfg : String) (cmd : Command) :
    (fs.pathExists cfg = false →
      vt_main fs mkApi cfg cmd =
        ([Event.printErr ("ERROR: " ++ "Config file \x27" ++ cfg ++
            "\x27 does not exist")],
         Outcome.exit 1)) ∧
    (fs.pathExists cfg = true → (fs.configAt cfg).lookup "vt" = none →
      vt_main fs mkApi cfg cmd =
        ([], Outcome.uncaught ("No section: \x27" ++ "vt" ++ "\x27"))) ∧
    (∀ opts, fs.pathExists cfg = true →
      (fs.configAt cfg).lookup "vt" = some opts →
      opts.lookup "apikey" = none →
      vt_main fs mkApi cfg cmd =
        ([], Outcome.uncaught ("No option \x27" ++ "apikey" ++
          "\x27 in section: \x27" ++ "vt" ++ "\x27"))) := by
  exact ⟨fun hmiss => by simp [vt_main, parse_config, hmiss],
    fun hex hsec => by simp [vt_main, parse_config, configGet, hex, hsec],
    fun opts hex hsec hopt => by
      simp [vt_main, parse_config, configGet, hex, hsec, hopt]⟩

/-- Witness for the amended C2 at concrete filesystems. -/
theorem claim_C2_witness :
    (vt_main fsMissing mkApiNull "/c" Command.noCmd =
      ([Event.printErr ("ERROR: " ++ "Config file \x27" ++ "/c" ++
          "\x27 does not exist")],
       Outcome.exit 1)) ∧
    (vt_main fsNoKey mkApiNull "/c" Command.noCmd =
      ([], Outcome.uncaught ("No option \x27" ++ "apikey" ++
        "\x27 in section: \x27" ++ "vt" ++ "\x27"))) :=
  ⟨(claim_C2_amended fsMissing mkApiNull "/c" Command.noCmd).1 rfl,
   (claim_C2_amended fsNoKey mkApiNull "/c" Command.noCmd).2.2 [] rfl rfl rfl⟩

/-- Claim C7: running file-report with the single hash `abc123` under a
valid config makes exactly one delegated report call with argument
`abc123` and pretty-prints exactly one JSON object to stdout. -/
theorem claim_C7 (fs : FileSys) (mkApi : String → VTApi) (cfg key : String)
    (hex : fs.pathExists cfg = true)
    (hkey : configGet (fs.configAt cfg) "vt" "apikey" = Except.ok key) :
    vt_main fs mkApi cfg (Command.file_report ["abc123"]) =
      ([Event.mkClient key,
        Event.call "get_file_report" "abc123",
        Event.printJson (pretty_print_json
          ((mkApi key).get_file_report "abc123"))],
       Outcome.ok) ∧
    delegatedCalls
        (vt_main fs mkApi cfg (Command.file_report ["abc123"])).1 =
      [("get_file_report", "abc123")] := by
  constructor <;>
    simp [vt_main, parse_config, hex, hkey, dispatch, file_report,
      check_num_args, strJoin, delegatedCalls]

/-- Witness for C7 at a concrete filesystem and client. -/
theorem claim_C7_witness :
    vt_main fsGood mkApiNull "/c" (Command.file_report ["abc123"]) =
      ([Event.mkClient "k",
        Event.call "get_file_report" "abc123",
        Event.printJson (pretty_print_json
          ((mkApiNull "k").get_file_report "abc123"))],
       Outcome.ok) ∧
    delegatedCalls
        (vt_main fsGood mkApiNull "/c" (Command.file_report ["abc123"])).1 =
      [("get_file_report", "abc123")] :=
  claim_C7 fsGood mkApiNull "/c" "k" rfl rfl

/-- Claim C10: with no subcommand, the driver still loads the config
(failing fatally with the usual message when the file is missing),
constructs the API client, performs no delegated call, prints nothing,
and returns normally (exit status 0). -/
theorem claim_C10 (fs : FileSys) (mkApi : String → VTApi) (cfg key : String) :
    (fs.pathExists cfg = true →
      configGet (fs.configAt cfg) "vt" "apikey" = Except.ok key →
      vt_main fs mkApi cfg Command.noCmd =
        ([Event.mkClient key], Outcome.ok)) ∧
    (fs.pathExists cfg = false →
      vt_main fs mkApi cfg Command.noCmd =
        ([Event.printErr ("ERROR: " ++ "Config file \x27" ++ cfg ++
            "\x27 does not exist")],
         Outcome.exit 1)) := by
  exact ⟨fun hex hkey => by
      simp [vt_main, parse_config, hex, hkey, dispatch],
    fun hmiss => by simp [vt_main, parse_config, hmiss]⟩

/-- Witness for C10: a good config yields only the client construction, a
missing config fails fatally. -/
theorem claim_C10_witness :
    (vt_main fsGood mkApiNull "/c" Command.noCmd =
      ([Event.mkClient "k"], Outcome.ok)) ∧
    (vt_main fsMissing mkApiNull "/c" Command.noCmd =
      ([Event.printErr ("ERROR: " ++ "Config file \x27" ++ "/c" ++
          "\x27 does not exist")],
       Outcome.exit 1)) :=
  ⟨(claim_C10 fsGood mkApiNull "/c" "k").1 rfl rfl,
   (claim_C10 fsMissing mkApiNull "/c" "k").2 rfl⟩

/-- `delegatedCalls` distributes over trace concatenation. -/
theorem delegatedCalls_append (a b : List Event) :
    delegatedCalls (a ++ b) = delegatedCalls a ++ delegatedCalls b := by
  induction a with
  | nil => simp [delegatedCalls]
  | cons e es ih => cases e <;> simp [delegatedCalls, ih]

/-- The config-parsing phase performs no delegated call. -/
theorem parse_config_no_calls (fs : FileSys) (cfg : String) :
    delegatedCalls (parse_config fs cfg).1 = [] := by
  unfold parse_config
  split
  · split <;> rfl
  · rfl

/-- Recognizer for the download command. -/
def isDownload : Command → Bool
  | Command.download _ _ => true
  | _ => false

/-- `check_num_args` either passes or yields the fixed usage-error result. -/
theorem check_num_args_cases (l : List String) :
    check_num_args l = none ∨
    check_num_args l =
      some ([Event.printErr ("ERROR: " ++ maxArgsMsg)], Outcome.exit 1) := by
  unfold check_num_args error
  split
  · exact Or.inr rfl
  · exact Or.inl rfl

/-- A non-download dispatch performs at most one delegated call. -/
theorem dispatch_calls_nondownload (fs : FileSys) (vt : VTApi) (cmd : Command)
    (hnd : isDownload cmd = false) :
    (delegatedCalls (dispatch fs vt cmd).1).length ≤ 1 := by
  cases cmd with
  | rescan l =>
      rcases check_num_args_cases l with hc | hc <;>
        simp [dispatch, file_rescan, hc, delegatedCalls]
  | file_report l =>
      rcases check_num_args_cases l with hc | hc <;>
        simp [dispatch, file_report, hc, delegatedCalls]
  | url_scan l =>
      rcases check_num_args_cases l with hc | hc <;>
        simp [dispatch, url_scan, hc, delegatedCalls]
  | url_report l =>
      rcases check_num_args_cases l with hc | hc <;>
        simp [dispatch, url_report, hc, delegatedCalls]
  | pcap h d =>
      by_cases hdir : fs.isDir d = true
      · cases hresp : vt.get_network_traffic h <;>
          simp [dispatch, network_traffic, hdir, hresp, delegatedCalls]
      · simp only [Bool.not_eq_true] at hdir
        simp [dispatch, network_traffic, hdir, error, delegatedCalls]
  | download h d => simp [isDownload] at hnd
  | _ =>
      simp [dispatch, file_scan, file_behaviour, search, ip_report,
        domain_report, delegatedCalls]

/-- The download dispatch performs at most two delegated calls. -/
theorem download_calls_le_two (fs : FileSys) (vt : VTApi) (h d : String) :
    (delegatedCalls (file_download fs vt h d).1).length ≤ 2 := by
  by_cases hdir : fs.isDir d = true
  · cases hresp : vt.get_file h with
    | dict m => simp [file_download, hdir, hresp, delegatedCalls]
    | bytes b =>
        simp [file_download, hdir, hresp, file_report, check_num_args,
          strJoin, delegatedCalls]
  · simp only [Bool.not_eq_true] at hdir
    simp [file_download, hdir, error, delegatedCalls]

/-- The dispatch phase performs at most two delegated calls. -/
theorem dispatch_calls_le_two (fs : FileSys) (vt : VTApi) (cmd : Command) :
    (delegatedCalls (dispatch fs vt cmd).1).length ≤ 2 := by
  cases hd : isDownload cmd with
  | false =>
      exact Nat.le_trans (dispatch_calls_nondownload fs vt cmd hd)
        (by decide)
  | true =>
      cases cmd <;> simp [isDownload] at hd
      exact download_calls_le_two fs vt _ _

/-- A download dispatch reaching two delegated calls got bytes back from
`get_file`. -/
theorem download_two_calls_bytes (fs : FileSys) (vt : VTApi) (h d : String)
    (h2 : (delegatedCalls (file_download fs vt h d).1).length = 2) :
    ∃ b, vt.get_file h = BinResponse.bytes b := by
  by_cases hdir : fs.isDir d = true
  · cases hresp : vt.get_file h with
    | dict m => simp [file_download, hdir, hresp, delegatedCalls] at h2
    | bytes b => exact ⟨b, rfl⟩
  · simp only [Bool.not_eq_true] at hdir
    simp [file_download, hdir, error, delegatedCalls] at h2

/-- `vt_main` performs exactly the calls of its dispatch phase (under some
key), or none when config parsing does not return a key. -/
theorem vt_main_calls (fs : FileSys) (mkApi : String → VTApi) (cfg : String)
    (cmd : Command) :
    delegatedCalls (vt_main fs mkApi cfg cmd).1 = [] ∨
    ∃ key, delegatedCalls (vt_main fs mkApi cfg cmd).1 =
      delegatedCalls (dispatch fs (mkApi key) cmd).1 := by
  have hpc := parse_config_no_calls fs cfg
  unfold vt_main
  rcases hres : parse_config fs cfg with ⟨tr, res⟩
  rw [hres] at hpc
  cases res with
  | error o => exact Or.inl hpc
  | ok key =>
      refine Or.inr ⟨key, ?_⟩
      simp [delegatedCalls_append, hpc, delegatedCalls]

/-- Counterexample to claim C9 as stated: a rescan invocation with 26
hashes and a perfectly valid config makes zero delegated calls, not
exactly one. -/
theorem claim_C9_counterexample :
    ¬ (delegatedCalls (vt_main fsGood mkApiNull "/root/.vtapi"
        (Command.rescan (List.replicate 26 "h"))).1).length = 1 := by
  decide

/-- The local argument validation a command performs before delegating:
the batch ceiling for the four list commands (`check_num_args`), the
directory check for pcap and download (`os.path.isdir`), nothing for the
rest; `noCmd` is no subcommand at all. -/
def argsValid (fs : FileSys) : Command → Bool
  | Command.file_scan _ => true
  | Command.rescan l => decide (l.length ≤ 25)
  | Command.file_report l => decide (l.length ≤ 25)
  | Command.behaviour _ => true
  | Command.pcap _ d => fs.isDir d
  | Command.search _ => true
  | Command.download _ d => fs.isDir d
  | Command.url_scan l => decide (l.length ≤ 25)
  | Command.url_report l => decide (l.length ≤ 25)
  | Command.ip_report _ => true
  | Command.domain_report _ => true
  | Command.noCmd => false

/-- A non-download subcommand whose validation passes performs exactly one
delegated call in its dispatch phase. -/
theorem dispatch_one_call_on_success (fs : FileSys) (vt : VTApi)
    (cmd : Command) (hnd : isDownload cmd = false)
    (hcmd : cmd ≠ Command.noCmd) (hv : argsValid fs cmd = true) :
    (delegatedCalls (dispatch fs vt cmd).1).length = 1 := by
  cases cmd with
  | file_scan f => simp [dispatch, file_scan, delegatedCalls]
  | rescan l =>
      have hle : l.length ≤ 25 := by simpa [argsValid] using hv
      have hc : check_num_args l = none := by
        simp [check_num_args, gt_iff_lt, Nat.not_lt.mpr hle]
      simp [dispatch, file_rescan, hc, delegatedCalls]
  | file_report l =>
      have hle : l.length ≤ 25 := by simpa [argsValid] using hv
      have hc : check_num_args l = none := by
        simp [check_num_args, gt_iff_lt, Nat.not_lt.mpr hle]
      simp [dispatch, file_report, hc, delegatedCalls]
  | behaviour h => simp [dispatch, file_behaviour, delegatedCalls]
  | pcap h d =>
      have hdir : fs.isDir d = true := by simpa [argsValid] using hv
      cases hresp : vt.get_network_traffic h <;>
        simp [dispatch, network_traffic, hdir, hresp, delegatedCalls]
  | search q => simp [dispatch, search, delegatedCalls]
  | download h d => simp [isDownload] at hnd
  | url_scan l =>
      have hle : l.length ≤ 25 := by simpa [argsValid] using hv
      have hc : check_num_args l = none := by
        simp [check_num_args, gt_iff_lt, Nat.not_lt.mpr hle]
      simp [dispatch, url_scan, hc, delegatedCalls]
  | url_report l =>
      have hle : l.length ≤ 25 := by simpa [argsValid] using hv
      have hc : check_num_args l = none := by
        simp [check_num_args, gt_iff_lt, Nat.not_lt.mpr hle]
      simp [dispatch, url_report, hc, delegatedCalls]
  | ip_report ip => simp [dispatch, ip_report, delegatedCalls]
  | domain_report dn => simp [dispatch, domain_report, delegatedCalls]
  | noCmd => exact absurd rfl hcmd

/-- Claim C9 as amended: every invocation makes at most two delegated
calls; a non-download command makes at most one, and exactly one when a
subcommand was given, config loading succeeds and its argument validation
passes; download makes two only when its first call returned bytes. -/
theorem claim_C9_amended :
    (∀ (fs : FileSys) (mkApi : String → VTApi) (cfg : String) (cmd : Command),
      (delegatedCalls (vt_main fs mkApi cfg cmd).1).length ≤ 2) ∧
    (∀ (fs : FileSys) (mkApi : String → VTApi) (cfg : String) (cmd : Command),
      isDownload cmd = false →
      (delegatedCalls (vt_main fs mkApi cfg cmd).1).length ≤ 1) ∧
    (∀ (fs : FileSys) (mkApi : String → VTApi) (cfg key : String)
      (cmd : Command),
      (parse_config fs cfg).2 = Except.ok key →
      isDownload cmd = false → cmd ≠ Command.noCmd →
      argsValid fs cmd = true →
      (delegatedCalls (vt_main fs mkApi cfg cmd).1).length = 1) ∧
    (∀ (fs : FileSys) (vt : VTApi) (h d : String),
      (delegatedCalls (file_download fs vt h d).1).length = 2 →
      ∃ b, vt.get_file h = BinResponse.bytes b) := by
  refine ⟨fun fs mkApi cfg cmd => ?_, fun fs mkApi cfg cmd hnd => ?_,
    fun fs mkApi cfg key cmd hpc hnd hcmd hv => ?_,
    download_two_calls_bytes⟩
  · rcases vt_main_calls fs mkApi cfg cmd with hz | ⟨key, hk⟩
    · simp [hz]
    · rw [hk]; exact dispatch_calls_le_two fs (mkApi key) cmd
  · rcases vt_main_calls fs mkApi cfg cmd with hz | ⟨key, hk⟩
    · simp [hz]
    · rw [hk]; exact dispatch_calls_nondownload fs (mkApi key) cmd hnd
  · have htr := parse_config_no_calls fs cfg
    rcases hres : parse_config fs cfg with ⟨tr, res⟩
    rw [hres] at htr hpc
    simp only at hpc
    subst hpc
    have hmain : vt_main fs mkApi cfg cmd =
        (tr ++ Event.mkClient key :: (dispatch fs (mkApi key) cmd).1,
         (dispatch fs (mkApi key) cmd).2) := by
      simp [vt_main, hres]
    rw [hmain]
    simp only [delegatedCalls_append, htr, delegatedCalls,
      List.nil_append]
    exact dispatch_one_call_on_success fs (mkApi key) cmd hnd hcmd hv

/-- Witness for the amended C9: a search invocation under a good config
makes at most — and exactly — one call, and a concrete download with two
calls indeed received bytes. -/
theorem claim_C9_witness :
    (delegatedCalls (vt_main fsGood mkApiNull "/c"
        (Command.search "q")).1).length ≤ 1 ∧
    (delegatedCalls (vt_main fsGood mkApiNull "/c"
        (Command.search "q")).1).length = 1 ∧
    ∃ b, vtBytes.get_file "h" = BinResponse.bytes b :=
  ⟨claim_C9_amended.2.1 fsGood mkApiNull "/c" (Command.search "q") rfl,
   claim_C9_amended.2.2.1 fsGood mkApiNull "/c" "k" (Command.search "q")
     rfl rfl (by decide) rfl,
   claim_C9_amended.2.2.2 fsGood vtBytes "h" "/out" (by decide)⟩

/-- Appending to a string that does not start with a slash cannot make it
start with one (unless the left part is empty and the right part starts
with a slash, excluded here). -/
theorem startsWithSlash_append (s t : String)
    (hs : startsWithSlash s = false) (ht : startsWithSlash t = false) :
    startsWithSlash (s ++ t) = false := by
  simp only [startsWithSlash, String.data_append] at *
  cases hl : s.data with
  | nil => simpa using ht
  | cons c cs =>
      rw [hl] at hs
      simpa using hs

/-- Under the usual conditions (relative name, non-empty directory not
already ending in a slash) `os.path.join` is plain concatenation with a
single separator. -/
theorem path_join_concat (dir name : String) (h0 : dir ≠ "")
    (he : endsWithSlash dir = false) (hn : startsWithSlash name = false) :
    path_join dir name = dir ++ "/" ++ name := by
  simp [path_join, hn, h0, he]

/-- Claim C8: on a successful binary retrieval the pcap command writes its
payload to `<output_dir>/<hash>.pcap` and the download command writes its
payload to `<output_dir>/<hash>` with no extension. -/
theorem claim_C8 (fs : FileSys) (vt : VTApi) (h d : String) (b : List Nat)
    (hdir : fs.isDir d = true) (h0 : d ≠ "")
    (he : endsWithSlash d = false) (hh : startsWithSlash h = false) :
    (vt.get_network_traffic h = BinResponse.bytes b →
      Event.writeFile (d ++ "/" ++ h ++ ".pcap") b ∈
        (network_traffic fs vt h d).1) ∧
    (vt.get_file h = BinResponse.bytes b →
      Event.writeFile (d ++ "/" ++ h) b ∈ (file_download fs vt h d).1) := by
  constructor
  · intro hresp
    have hpc : startsWithSlash (h ++ ".pcap") = false :=
      startsWithSlash_append h ".pcap" hh rfl
    have hjoin : path_join d (h ++ ".pcap") = d ++ "/" ++ h ++ ".pcap" := by
      rw [path_join_concat d (h ++ ".pcap") h0 he hpc, String.append_assoc,
        String.append_assoc, String.append_assoc]
    rw [← hjoin]
    simp [network_traffic, hdir, hresp]
  · intro hresp
    rw [← path_join_concat d h h0 he hh]
    simp [file_download, hdir, hresp]

/-- Witness for C8 at concrete inputs. -/
theorem claim_C8_witness :
    (Event.writeFile ("/out" ++ "/" ++ "h" ++ ".pcap") [1, 2, 3] ∈
      (network_traffic fsGood vtBytes "h" "/out").1) ∧
    (Event.writeFile ("/out" ++ "/" ++ "h") [7] ∈
      (file_download fsGood vtBytes "h" "/out").1) :=
  ⟨(claim_C8 fsGood vtBytes "h" "/out" [1, 2, 3] rfl (by decide) rfl rfl).1 rfl,
   (claim_C8 fsGood vtBytes "h" "/out" [7] rfl (by decide) rfl rfl).2 rfl⟩

/-- Rendering of one object member (key kept for sorting). -/
def memberRender (ind lvl : Nat) (kv : String × Json) : String × String :=
  (kv.1, quoteStr kv.1 ++ ": " ++ dumpsVal kv.2 ind lvl)

/-- `dumpsMembers` is the elementwise member rendering. -/
theorem dumpsMembers_eq_map (ms : List (String × Json)) (ind lvl : Nat) :
    dumpsMembers ms ind lvl = ms.map (memberRender ind lvl) := by
  induction ms with
  | nil => simp [dumpsMembers]
  | cons m t ih =>
      cases m with
      | mk k v => simp [dumpsMembers, memberRender, ih]

/-- A key-preserving map commutes with ordered insertion by key. -/
theorem map_orderedInsert {α β : Type} (f : String × α → String × β)
    (hf : ∀ x, (f x).1 = x.1) (x : String × α) (l : List (String × α)) :
    (List.orderedInsert keyLE x l).map f =
      List.orderedInsert keyLE (f x) (l.map f) := by
  induction l with
  | nil => rfl
  | cons b t ih =>
      by_cases hxb : keyLE x b
      · have hfx : keyLE (f x) (f b) := by
          simp only [keyLE, hf]
          exact hxb
        simp [List.orderedInsert, hxb, hfx]
      · have hfx : ¬ keyLE (f x) (f b) := by
          simp only [keyLE, hf]
          exact hxb
        simp [List.orderedInsert, hxb, hfx, ih]

/-- A key-preserving map commutes with sorting by key. -/
theorem sortByKey_map {α β : Type} (f : String × α → String × β)
    (hf : ∀ x, (f x).1 = x.1) (l : List (String × α)) :
    sortByKey (l.map f) = (sortByKey l).map f := by
  induction l with
  | nil => rfl
  | cons b t ih =>
      simp only [sortByKey, List.insertionSort, List.map] at *
      rw [ih, ← map_orderedInsert f hf]

instance {α : Type} : IsTotal (String × α) keyLE :=
  ⟨fun a b => le_total a.1 b.1⟩

instance {α : Type} : IsTrans (String × α) keyLE :=
  ⟨fun _ _ _ h1 h2 => le_trans h1 h2⟩

/-- Strict key ordering, used to pin sorted association lists down. -/
def keyLT {α : Type} (a b : String × α) : Prop :=
  a.1 < b.1

instance {α : Type} : IsAntisymm (String × α) keyLT :=
  ⟨fun _ _ h1 h2 => absurd h1 (lt_asymm h2)⟩

/-- With pairwise-distinct keys, the key-sorted list is strictly sorted. -/
theorem sortByKey_sorted_lt {α : Type} (l : List (String × α))
    (hnd : (l.map Prod.fst).Nodup) : List.Sorted keyLT (sortByKey l) := by
  have hle : List.Sorted keyLE (sortByKey l) :=
    List.sorted_insertionSort keyLE l
  have hperm : (sortByKey l).Perm l := List.perm_insertionSort keyLE l
  have hnd2 : ((sortByKey l).map Prod.fst).Nodup :=
    hnd.perm (hperm.map Prod.fst).symm
  have hne : (sortByKey l).Pairwise (fun a b => a.1 ≠ b.1) :=
    List.pairwise_map.mp hnd2
  exact (hle.and hne).imp (fun h => lt_of_le_of_ne h.1 h.2)

/-- Sorting by key is invariant under permutation when keys are distinct. -/
theorem sortByKey_eq_of_perm {α : Type} (l1 l2 : List (String × α))
    (hp : l1.Perm l2) (hnd : (l1.map Prod.fst).Nodup) :
    sortByKey l1 = sortByKey l2 := by
  have hnd2 : (l2.map Prod.fst).Nodup := hnd.perm (hp.map Prod.fst)
  have hperm : (sortByKey l1).Perm (sortByKey l2) :=
    (List.perm_insertionSort keyLE l1).trans
      (hp.trans (List.perm_insertionSort keyLE l2).symm)
  exact List.eq_of_perm_of_sorted hperm (sortByKey_sorted_lt l1 hnd)
    (sortByKey_sorted_lt l2 hnd2)

/-- Sorting the rendered members is rendering the sorted members. -/
theorem obj_members_render (ms : List (String × Json)) (ind lvl : Nat) :
    sortByKey (dumpsMembers ms ind lvl) =
      (sortByKey ms).map (memberRender ind lvl) := by
  rw [dumpsMembers_eq_map, sortByKey_map (memberRender ind lvl) (fun x => rfl)]

/-- The output format the spec describes for an object: members emitted in
sorted key order, each line indented by four spaces (one nesting level of
the 4-space indent), then the closing brace and the newline from print. -/
def specObjOutput : List (String × Json) → String
  | [] => "\x7b\x7d" ++ "\n"
  | m :: ms =>
      "\x7b\n" ++
      strJoin ",\n" ((sortByKey (m :: ms)).map
        (fun kv => pad 4 1 ++ (quoteStr kv.1 ++ ": " ++ dumpsVal kv.2 4 1))) ++
      "\n" ++ pad 4 0 ++ "\x7d" ++ "\n"

/-- Claim C6: pretty-printed JSON objects come out with keys sorted and
4-space indentation, regardless of the key ordering of the input value:
permuting the members (with distinct keys) leaves the output unchanged,
and the output equals the spec-side sorted rendering. -/
theorem claim_C6 (ms ms' : List (String × Json)) (hperm : ms.Perm ms')
    (hnd : (ms.map Prod.fst).Nodup) :
    pretty_print_json (Json.obj ms) = pretty_print_json (Json.obj ms') ∧
    pretty_print_json (Json.obj ms) = specObjOutput ms := by
  cases ms with
  | nil =>
      have h0 : ms' = [] := hperm.symm.eq_nil
      subst h0
      exact ⟨rfl, rfl⟩
  | cons m t =>
      obtain ⟨m', t', rfl⟩ : ∃ a l, ms' = a :: l := by
        cases ms' with
        | nil => exact absurd hperm.eq_nil (by simp)
        | cons a l => exact ⟨a, l, rfl⟩
      constructor
      · have key : sortByKey (dumpsMembers (m :: t) 4 (0 + 1)) =
            sortByKey (dumpsMembers (m' :: t') 4 (0 + 1)) := by
          rw [dumpsMembers_eq_map, dumpsMembers_eq_map]
          refine sortByKey_eq_of_perm _ _ (hperm.map _) ?_
          rwa [List.map_map,
            show Prod.fst ∘ memberRender 4 (0 + 1) = Prod.fst from rfl]
        simp only [pretty_print_json, dumpsVal, key]
      · have key := obj_members_render (m :: t) 4 (0 + 1)
        simp only [pretty_print_json, dumpsVal, specObjOutput, key,
          List.map_map]
        rfl

/-- Witness for C6: swapping two concretely keyed members leaves the
output unchanged and the output is the sorted rendering. -/
theorem claim_C6_witness :
    pretty_print_json (Json.obj [("b", Json.num 1), ("a", Json.null)]) =
      pretty_print_json (Json.obj [("a", Json.null), ("b", Json.num 1)]) ∧
    pretty_print_json (Json.obj [("b", Json.num 1), ("a", Json.null)]) =
      specObjOutput [("b", Json.num 1), ("a", Json.null)] :=
  claim_C6 [("b", Json.num 1), ("a", Json.null)]
    [("a", Json.null), ("b", Json.num 1)]
    (List.Perm.swap ("a", Json.null) ("b", Json.num 1) [])
    (by decide)
